import Mathlib

/-!
Verification of the digitarr release pipeline: a shallow embedding of the
release checker, filter engine, acquisition sinks and notification gate,
with theorems about the claims of the specification.

Python dictionaries are embedded as Lean structures whose optional fields
are `Option`-typed; `dict.get(key, default)` becomes `Option.getD`.
HTTP calls are embedded by passing the response (or a network-level
failure) as an explicit argument of type `NetResult`.
-/

set_option maxHeartbeats 1000000

/-- Outcome of one HTTP call: a parsed response, or a network-level
exception (`requests.exceptions.RequestException` or any other raised
error, which the source always catches at the call site). -/
inductive NetResult (α : Type) : Type
  | ok (a : α)
  | err
deriving DecidableEq, Repr

/-- TMDB release-type code for digital releases (release_checker.py line 16). -/
def RELEASE_TYPE_DIGITAL : Nat := 4

/-- One entry of a country's `release_dates` list in the TMDB detail
payload: `{"type": ..., "release_date": ..., "certification": ...}`.
`get` defaults (`""` for the strings) are baked in; a missing `type`
is any code different from the digital one. -/
structure ReleaseEntry where
  type : Nat
  release_date : String
  certification : String
deriving DecidableEq, Repr

/-- One country entry of `movie["release_dates"]["results"]`:
`{"iso_3166_1": ..., "release_dates": [...]}`. -/
structure CountryEntry where
  iso_3166_1 : String
  release_dates : List ReleaseEntry
deriving DecidableEq, Repr

/-- The canonical release record built by
`ReleaseChecker._get_movie_with_release_dates` (release_checker.py lines
103-117) and consumed by the filter engine and the sinks.  Fields that the
source reads with a truthiness test or an explicit default keep the
Python `None` possibility as `Option`; `vote_average` and `popularity`
carry the section-3 default 0, `adult` the default `False`,
`original_language` the default `""`. -/
structure Release where
  type : String
  tmdb_id : Option Nat
  title : Option String
  release_date : Option String
  overview : Option String
  imdb_id : Option String
  vote_average : Rat
  popularity : Rat
  adult : Bool
  poster_path : Option String
  original_language : String
  genres : List String
  certification : Option String
deriving DecidableEq, Repr

/-- Python's `str.lower()`, embedded as character-wise ASCII case
mapping (the certification and genre strings the pipeline compares are
ASCII). -/
def strLower (s : String) : String := ⟨s.data.map Char.toLower⟩

/-- Python's `str.upper()`, embedded as character-wise ASCII case
mapping. -/
def strUpper (s : String) : String := ⟨s.data.map Char.toUpper⟩

/-- Python truthiness of a `tmdb_id` value: absent (`None`) and `0` are
falsy, every other integer is truthy. -/
def tmdbTruthy : Option Nat → Bool
  | none => false
  | some n => n != 0

/-- The `filters` section of the configuration, with the defaults the
call sites of filters.py apply (`get("exclude_adult")`,
`get("min_tmdb_rating", 0)`, and `[]` for the three lists). -/
structure Filters where
  exclude_adult : Bool
  min_tmdb_rating : Rat
  allowed_languages : List String
  excluded_genres : List String
  excluded_certifications : List String
deriving DecidableEq, Repr

/-- Embeds `FilterEngine._filter_adult` (filters.py lines 53-55). -/
def filter_adult (releases : List Release) : List Release :=
  releases.filter (fun r => !r.adult)

/-- Embeds `FilterEngine._filter_by_tmdb_rating` (filters.py lines 57-69):
keep releases with `vote_average >= min_rating`. -/
def filter_by_tmdb_rating (min_rating : Rat) (releases : List Release) : List Release :=
  releases.filter (fun r => decide (min_rating ≤ r.vote_average))

/-- Embeds `FilterEngine._filter_by_allowed_languages` (filters.py lines 71-87):
keep releases whose `original_language` is in the allow-list. -/
def filter_by_allowed_languages (allowed_langs : List String)
    (releases : List Release) : List Release :=
  releases.filter (fun r => allowed_langs.contains r.original_language)

/-- Embeds `FilterEngine._filter_by_excluded_genres` (filters.py lines 89-111):
drop releases one of whose lower-cased genres is in the lower-cased
deny-list. -/
def filter_by_excluded_genres (excluded_genres : List String)
    (releases : List Release) : List Release :=
  let excluded_lower := excluded_genres.map strLower
  releases.filter (fun r =>
    !((r.genres.map strLower).any (fun g => excluded_lower.contains g)))

/-- Embeds `FilterEngine._filter_by_excluded_certifications` (filters.py lines
113-132): drop releases with a truthy certification whose upper-casing is
in the upper-cased deny-list; a `None` or empty certification is kept. -/
def filter_by_excluded_certifications (excluded_certs : List String)
    (releases : List Release) : List Release :=
  let excluded_upper := excluded_certs.map strUpper
  releases.filter (fun r =>
    match r.certification with
    | none => true
    | some cert => !(cert != "" && excluded_upper.contains (strUpper cert)))

/-- Embeds `FilterEngine.apply_filters` (filters.py lines 19-51): the fixed
five-stage chain, each stage applied only when its configuration slice is
truthy. -/
def apply_filters (f : Filters) (releases : List Release) : List Release :=
  let filtered := releases
  let filtered := if f.exclude_adult then filter_adult filtered else filtered
  let filtered := if 0 < f.min_tmdb_rating then
      filter_by_tmdb_rating f.min_tmdb_rating filtered else filtered
  let filtered := if f.allowed_languages ≠ [] then
      filter_by_allowed_languages f.allowed_languages filtered else filtered
  let filtered := if f.excluded_genres ≠ [] then
      filter_by_excluded_genres f.excluded_genres filtered else filtered
  let filtered := if f.excluded_certifications ≠ [] then
      filter_by_excluded_certifications f.excluded_certifications filtered else filtered
  filtered

/-- Names for the five filter stages of `apply_filters`, in support of
the stage-order claims. -/
inductive Stage : Type
  | adult
  | rating
  | langs
  | genres
  | certs
deriving DecidableEq, Repr

/-- One stage of `apply_filters`, with its enablement test. -/
def applyStage (f : Filters) (s : Stage) (releases : List Release) : List Release :=
  match s with
  | .adult => if f.exclude_adult then filter_adult releases else releases
  | .rating => if 0 < f.min_tmdb_rating then
      filter_by_tmdb_rating f.min_tmdb_rating releases else releases
  | .langs => if f.allowed_languages ≠ [] then
      filter_by_allowed_languages f.allowed_languages releases else releases
  | .genres => if f.excluded_genres ≠ [] then
      filter_by_excluded_genres f.excluded_genres releases else releases
  | .certs => if f.excluded_certifications ≠ [] then
      filter_by_excluded_certifications f.excluded_certifications releases else releases

/-- The stage order hard-coded in `apply_filters`. -/
def fixedStageOrder : List Stage := [.adult, .rating, .langs, .genres, .certs]

/-- Applying a sequence of stages left to right. -/
def applyStages (f : Filters) (order : List Stage) (releases : List Release) : List Release :=
  order.foldl (fun acc s => applyStage f s acc) releases

/-- The per-release keep-predicate of one stage (true when the stage is
disabled by the configuration). -/
def stageKeep (f : Filters) (s : Stage) (r : Release) : Bool :=
  match s with
  | .adult => if f.exclude_adult then !r.adult else true
  | .rating => if 0 < f.min_tmdb_rating then decide (f.min_tmdb_rating ≤ r.vote_average) else true
  | .langs => if f.allowed_languages ≠ [] then
      f.allowed_languages.contains r.original_language else true
  | .genres => if f.excluded_genres ≠ [] then
      !((r.genres.map strLower).any
        (fun g => (f.excluded_genres.map strLower).contains g)) else true
  | .certs => if f.excluded_certifications ≠ [] then
      (match r.certification with
       | none => true
       | some cert => !(cert != "" &&
          (f.excluded_certifications.map strUpper).contains (strUpper cert))) else true

/-- One iteration of the inner loop of
`ReleaseChecker._find_digital_release_info` (release_checker.py lines
136-148), acting on the mutable pair `(digital_date, certification)` for
one release entry of the country `country`. -/
def releaseStep (country : String) (acc : Option String × Option String)
    (rel : ReleaseEntry) : Option String × Option String :=
  if rel.type = RELEASE_TYPE_DIGITAL then
    let digital_date := if rel.release_date ≠ "" ∧ acc.1 = none then
        some (rel.release_date.take 10) else acc.1
    let certification := if rel.certification ≠ "" then
        (if country = "US" then some rel.certification
         else if acc.2 = none then some rel.certification else acc.2)
      else acc.2
    (digital_date, certification)
  else acc

/-- Embeds `ReleaseChecker._find_digital_release_info` (release_checker.py lines
123-150): scan the country entries in catalog order, resolving the
digital release date and the certification. -/
def find_digital_release_info (results : List CountryEntry) :
    Option String × Option String :=
  results.foldl
    (fun acc country_releases =>
      country_releases.release_dates.foldl (releaseStep country_releases.iso_3166_1) acc)
    (none, none)

/-- The digital-type entries of the country list, flattened in catalog
order, each paired with its country code. -/
def digitalEntries (results : List CountryEntry) : List (String × ReleaseEntry) :=
  results.flatMap (fun ce =>
    (ce.release_dates.filter (fun rel => rel.type = RELEASE_TYPE_DIGITAL)).map
      (fun rel => (ce.iso_3166_1, rel)))

/-- Modelled from the spec: the certification tie-break policy, read off
the spec wording — scanning the digital entries' `(country,
certification)` pairs in catalog order, a non-empty certification from
"US" always overwrites any prior value, and a non-empty certification
from any other country is recorded only if none has been recorded yet. -/
def specCertTieBreak (pairs : List (String × String)) : Option String :=
  pairs.foldl
    (fun acc p =>
      if p.2 ≠ "" then
        (if p.1 = "US" then some p.2
         else if acc = none then some p.2 else acc)
      else acc)
    none

/-- Modelled from the spec: the digital-date policy, read off the spec
wording — the first non-empty release date among the digital entries in
catalog order, truncated to its first ten characters (YYYY-MM-DD). -/
def specFirstDigitalDate (dates : List String) : Option String :=
  (dates.find? (fun d => d ≠ "")).map (fun d => d.take 10)

/-- The TMDB movie detail payload, as read by
`ReleaseChecker._get_movie_with_release_dates` (release_checker.py lines
84-117): `genres` already projected to its name strings, and
`release_dates` to its `results` list. -/
structure Movie where
  id : Option Nat
  title : Option String
  release_date : Option String
  overview : Option String
  imdb_id : Option String
  vote_average : Option Rat
  popularity : Option Rat
  adult : Bool
  poster_path : Option String
  original_language : String
  genres : List String
  release_dates : List CountryEntry
deriving DecidableEq, Repr

/-- Python's `a or b` on an optional string `a`: `b` when `a` is `None`
or empty, `a` otherwise. -/
def orElseStr (a : Option String) (b : Option String) : Option String :=
  match a with
  | some s => if s = "" then b else some s
  | none => b

/-- The record construction of
`ReleaseChecker._get_movie_with_release_dates` (release_checker.py lines
97-117): resolve the digital date and certification, take the generic
`release_date` as fallback, and default the numeric scores to 0. -/
def get_movie_with_release_dates (movie : Movie) : Release :=
  let resolved := find_digital_release_info movie.release_dates
  { type := "movie"
    tmdb_id := movie.id
    title := movie.title
    release_date := orElseStr resolved.1 movie.release_date
    overview := movie.overview
    imdb_id := movie.imdb_id
    vote_average := movie.vote_average.getD 0
    popularity := movie.popularity.getD 0
    adult := movie.adult
    poster_path := movie.poster_path
    original_language := movie.original_language
    genres := movie.genres
    certification := resolved.2 }

/-- State of `OverseerrRequester` after `__init__`
(overseerr_requester.py lines 16-23). -/
structure OverseerrRequester where
  api_url : String
  api_key : String
deriving DecidableEq, Repr

/-- State of `RivenRequester` after `__init__` (riven_requester.py lines
15-22); a missing key only logs a warning. -/
structure RivenRequester where
  api_url : String
  api_key : String
deriving DecidableEq, Repr

/-- State of `DiscordNotifier` after `__init__` (discord_notifier.py
lines 21-24). -/
structure DiscordNotifier where
  webhook_url : String
deriving DecidableEq, Repr

/-- The configuration sections the three sink constructors read, each
field `None` when the key is absent. -/
structure Config where
  overseerr_api_url : Option String
  overseerr_api_key : Option String
  riven_api_url : Option String
  riven_api_key : Option String
  discord_webhook_url : Option String
deriving DecidableEq, Repr

/-- Embeds `OverseerrRequester.__init__` (overseerr_requester.py lines 16-23):
defaults applied, then `ValueError` — embedded as `Except.error` — when
the API key is falsy. -/
def overseerrInit (config : Config) : Except String OverseerrRequester :=
  let api_url := config.overseerr_api_url.getD "http://localhost:5055"
  let api_key := config.overseerr_api_key.getD ""
  if api_key = "" then .error "Overseerr API key is required"
  else .ok { api_url := api_url, api_key := api_key }

/-- Embeds `RivenRequester.__init__` (riven_requester.py lines 15-22): never
raises, only applies the defaults. -/
def rivenInit (config : Config) : RivenRequester :=
  { api_url := config.riven_api_url.getD "http://localhost:8083"
    api_key := config.riven_api_key.getD "" }

/-- Embeds `RivenRequester.is_enabled` (riven_requester.py lines 24-26). -/
def RivenRequester.is_enabled (rq : RivenRequester) : Bool :=
  rq.api_key != "" && rq.api_url != ""

/-- Embeds `DiscordNotifier.__init__` (discord_notifier.py lines 21-24). -/
def discordInit (config : Config) : DiscordNotifier :=
  { webhook_url := config.discord_webhook_url.getD "" }

/-- Embeds `DiscordNotifier.is_enabled` (discord_notifier.py lines 26-28). -/
def DiscordNotifier.is_enabled (d : DiscordNotifier) : Bool :=
  d.webhook_url != ""

/-- The observable content of the Overseerr status-check response
(overseerr_requester.py lines 71-93): the HTTP status code together with
`data["mediaInfo"].get("status")` (the media-status ordinal, `None` when
absent). -/
abbrev CheckResponse := NetResult (Nat × Option Nat)

/-- Embeds `OverseerrRequester._is_already_requested` (overseerr_requester.py
lines 71-93): true only on a 200 response whose media-status ordinal is
truthy and at least 2; any other outcome, including a network failure,
yields false. -/
def is_already_requested (resp : CheckResponse) : Bool :=
  match resp with
  | .ok (code, mstatus) =>
    if code = 200 then
      match mstatus with
      | some s => s != 0 && decide (2 ≤ s)
      | none => false
    else false
  | .err => false

/-- Embeds `OverseerrRequester.request_media` (overseerr_requester.py lines
25-69): no TMDB id or an already-requested item short-circuits to false;
otherwise the submit response decides the outcome — 200/201 and 409
succeed, anything else (including a network failure) fails.  The source
catches every exception, so the embedding is a total function. -/
def request_media (tmdb_id : Option Nat) (check : CheckResponse)
    (submit : NetResult Nat) : Bool :=
  if !tmdbTruthy tmdb_id then false
  else if is_already_requested check then false
  else
    match submit with
    | .ok code =>
      if code = 200 ∨ code = 201 then true
      else if code = 409 then true
      else false
    | .err => false

/-- The result of one Riven batch call: the `success` and `failed`
counts of the dictionary `RivenRequester._add_items` returns. -/
structure BatchResult where
  success : Nat
  failed : Nat
deriving DecidableEq, Repr

/-- The `tmdb_ids` extraction of `RivenRequester._add_items`
(riven_requester.py line 61): the stringified truthy TMDB ids. -/
def rivenTmdbIds (releases : List Release) : List String :=
  (releases.filter (fun r => tmdbTruthy r.tmdb_id)).map
    (fun r => toString (r.tmdb_id.getD 0))

/-- Embeds `RivenRequester._add_items` (riven_requester.py lines 49-126): keep
the truthy TMDB ids, short-circuit when none remain, then map the
response status — 200 succeeds for the whole batch, 404, 422, any other
status and any network failure fail for the whole batch.  The source
catches every exception, so the embedding is a total function. -/
def add_items (releases : List Release) (resp : NetResult Nat) : BatchResult :=
  let tmdb_ids := rivenTmdbIds releases
  if tmdb_ids.length = 0 then { success := 0, failed := releases.length }
  else
    match resp with
    | .ok code =>
      if code = 200 then { success := tmdb_ids.length, failed := 0 }
      else if code = 404 then { success := 0, failed := tmdb_ids.length }
      else if code = 422 then { success := 0, failed := tmdb_ids.length }
      else { success := 0, failed := tmdb_ids.length }
    | .err => { success := 0, failed := releases.length }

/-- Embeds `RivenRequester.add_media` (riven_requester.py lines 28-47): nothing
happens when the sink is disabled; otherwise the releases whose type tag
is "movie" are batched through `_add_items` when any exist. -/
def add_media (rq : RivenRequester) (releases : List Release)
    (resp : NetResult Nat) : BatchResult :=
  if !rq.is_enabled then { success := 0, failed := 0 }
  else
    let movies := releases.filter (fun r => r.type = "movie")
    if movies.length ≠ 0 then add_items movies resp
    else { success := 0, failed := 0 }

/-- One entry of the dispatch result map: the per-sink success flags,
`None` when the key is absent from the entry's dictionary. -/
structure SinkFlags where
  overseerr : Option Bool
  riven : Option Bool
deriving DecidableEq, Repr

/-- Embeds `str(release.get("tmdb_id", ""))` (discord_notifier.py line 48). -/
def strTmdbId (r : Release) : String :=
  match r.tmdb_id with
  | none => ""
  | some n => toString n

/-- Embeds the lookup `results.get(tmdb_id)` with empty-dict default
(discord_notifier.py line 49) over
the result map embedded as an association list. -/
def lookupFlags (results : List (String × SinkFlags)) (key : String) : SinkFlags :=
  ((results.find? (fun p => p.1 = key)).map Prod.snd).getD
    { overseerr := none, riven := none }

/-- The gate of the notification loop (discord_notifier.py lines 47-53):
a delivery is attempted for a release exactly when its entry marks at
least one sink successful. -/
def notifyGate (results : List (String × SinkFlags)) (r : Release) : Bool :=
  let release_result := lookupFlags results (strTmdbId r)
  !(!(release_result.overseerr.getD false) && !(release_result.riven.getD false))

/-- The sublist of releases for which
`DiscordNotifier.send_release_notifications` (discord_notifier.py lines
30-67) attempts a delivery: empty when the notifier is disabled,
otherwise the releases passing `notifyGate` in order.  The delivery
itself (`_send_release_notification`) is an external HTTP effect and
does not influence which releases are attempted. -/
def notification_attempts (d : DiscordNotifier) (releases : List Release)
    (results : List (String × SinkFlags)) : List Release :=
  if !d.is_enabled then []
  else releases.filter (fun r => notifyGate results r)

/-- The date component of `releaseStep` on a digital entry. -/
def dateStep (d : Option String) (p : String × ReleaseEntry) : Option String :=
  if p.2.release_date ≠ "" ∧ d = none then some (p.2.release_date.take 10) else d

/-- The certification component of `releaseStep` on a digital entry. -/
def certStep (c : Option String) (p : String × ReleaseEntry) : Option String :=
  if p.2.certification ≠ "" then
    (if p.1 = "US" then some p.2.certification
     else if c = none then some p.2.certification else c)
  else c

/-- Action of `releaseStep` on a digital entry, componentwise on the
`(date, certification)` accumulator. -/
def digitalStep (acc : Option String × Option String) (p : String × ReleaseEntry) :
    Option String × Option String :=
  (dateStep acc.1 p, certStep acc.2 p)

theorem releaseStep_eq (country : String) (acc : Option String × Option String)
    (rel : ReleaseEntry) :
    releaseStep country acc rel =
      if rel.type = RELEASE_TYPE_DIGITAL then digitalStep acc (country, rel) else acc := rfl

theorem foldl_releaseStep_eq (country : String) (rels : List ReleaseEntry)
    (acc : Option String × Option String) :
    rels.foldl (releaseStep country) acc =
      ((rels.filter (fun rel => rel.type = RELEASE_TYPE_DIGITAL)).map
        (fun rel => (country, rel))).foldl digitalStep acc := by
  induction rels generalizing acc with
  | nil => rfl
  | cons r rest ih =>
    simp only [List.foldl_cons, releaseStep_eq, List.filter_cons]
    by_cases h : r.type = RELEASE_TYPE_DIGITAL
    · simp [h, ih]
    · simp [h, ih]

theorem find_digital_release_info_eq_foldl (results : List CountryEntry) :
    find_digital_release_info results =
      (digitalEntries results).foldl digitalStep (none, none) := by
  suffices h : ∀ acc, results.foldl
      (fun acc ce => ce.release_dates.foldl (releaseStep ce.iso_3166_1) acc) acc =
      (digitalEntries results).foldl digitalStep acc from h (none, none)
  induction results with
  | nil => intro acc; rfl
  | cons ce rest ih =>
    intro acc
    simp only [digitalEntries, List.flatMap_cons, List.foldl_cons, List.foldl_append]
    rw [foldl_releaseStep_eq]
    simpa only [digitalEntries] using ih _

theorem foldl_prod {α β γ : Type} (f : α → γ → α) (g : β → γ → β) (l : List γ)
    (a : α) (b : β) :
    l.foldl (fun p x => (f p.1 x, g p.2 x)) (a, b) = (l.foldl f a, l.foldl g b) := by
  induction l generalizing a b with
  | nil => rfl
  | cons x xs ih => simp [List.foldl_cons, ih]

theorem find_digital_release_info_split (results : List CountryEntry) :
    find_digital_release_info results =
      ((digitalEntries results).foldl dateStep none,
       (digitalEntries results).foldl certStep none) := by
  rw [find_digital_release_info_eq_foldl]
  exact foldl_prod dateStep certStep (digitalEntries results) none none

theorem foldl_dateStep_some (l : List (String × ReleaseEntry)) (s : String) :
    l.foldl dateStep (some s) = some s := by
  induction l with
  | nil => rfl
  | cons p rest ih => simp [List.foldl_cons, dateStep, ih]

theorem foldl_dateStep_none (l : List (String × ReleaseEntry)) :
    l.foldl dateStep none = specFirstDigitalDate (l.map (fun p => p.2.release_date)) := by
  induction l with
  | nil => rfl
  | cons p rest ih =>
    by_cases h : p.2.release_date = ""
    · simp [List.foldl_cons, dateStep, h, specFirstDigitalDate, List.find?_cons] at ih ⊢
      exact ih
    · simp [List.foldl_cons, dateStep, h, specFirstDigitalDate, List.find?_cons,
        foldl_dateStep_some]

theorem foldl_certStep_eq (l : List (String × ReleaseEntry)) (acc : Option String) :
    l.foldl certStep acc =
      (l.map (fun p => (p.1, p.2.certification))).foldl
        (fun acc p =>
          if p.2 ≠ "" then
            (if p.1 = "US" then some p.2
             else if acc = none then some p.2 else acc)
          else acc) acc := by
  induction l generalizing acc with
  | nil => rfl
  | cons p rest ih => simp [List.foldl_cons, certStep, ih]

/-- C1: the resolved certification follows the tie-break policy over the
digital-type country entries in catalog order — a non-empty "US"
certification always overwrites, any other non-empty certification is
recorded only when none has been recorded yet; in particular FR "12"
then US "R" resolves to "R", and FR "12" alone resolves to "12". -/
theorem certification_tie_break_policy (results : List CountryEntry) :
    (find_digital_release_info results).2 =
      specCertTieBreak ((digitalEntries results).map (fun p => (p.1, p.2.certification)))
    ∧ (find_digital_release_info
        [{ iso_3166_1 := "FR",
           release_dates := [{ type := 4, release_date := "", certification := "12" }] },
         { iso_3166_1 := "US",
           release_dates := [{ type := 4, release_date := "", certification := "R" }] }]).2
        = some "R"
    ∧ (find_digital_release_info
        [{ iso_3166_1 := "FR",
           release_dates := [{ type := 4, release_date := "", certification := "12" }] }]).2
        = some "12" := by
  refine ⟨?_, by decide, by decide⟩
  rw [find_digital_release_info_split]
  rw [show ((digitalEntries results).foldl dateStep none,
      (digitalEntries results).foldl certStep none).2 =
      (digitalEntries results).foldl certStep none from rfl]
  rw [foldl_certStep_eq]
  rfl

/-- C6: the resolved digital release date is the first non-empty date
among the digital-type entries in catalog order, truncated to its first
ten characters; when no digital entry yields a date the generic release
date of the detail record is the fallback, and when no certification is
found the certification field is `None`. -/
theorem digital_date_resolution (results : List CountryEntry) (movie : Movie) :
    ((find_digital_release_info results).1 =
      specFirstDigitalDate ((digitalEntries results).map (fun p => p.2.release_date)))
    ∧ ((find_digital_release_info movie.release_dates).1 = none →
        (get_movie_with_release_dates movie).release_date = movie.release_date)
    ∧ ((find_digital_release_info movie.release_dates).2 = none →
        (get_movie_with_release_dates movie).certification = none) := by
  refine ⟨?_, ?_, ?_⟩
  · rw [find_digital_release_info_split]
    exact foldl_dateStep_none (digitalEntries results)
  · intro h
    simp [get_movie_with_release_dates, h, orElseStr]
  · intro h
    simp [get_movie_with_release_dates, h]

/-- Concrete movie for the C6 witness: no digital entry at all, generic
release date "2024-05-01". -/
def movieNoDigital : Movie :=
  { id := some 77, title := some "T", release_date := some "2024-05-01",
    overview := none, imdb_id := none, vote_average := none, popularity := none,
    adult := false, poster_path := none, original_language := "en", genres := [],
    release_dates := [⟨"FR", [⟨3, "2024-04-01", "12"⟩]⟩] }

/-- Witness for C6 at `movieNoDigital`: the fallback date is used and
the certification stays absent. -/
theorem digital_date_resolution_witness :
    (get_movie_with_release_dates movieNoDigital).release_date = some "2024-05-01"
    ∧ (get_movie_with_release_dates movieNoDigital).certification = none := by
  have h := digital_date_resolution [] movieNoDigital
  exact ⟨(h.2.1 (by decide)).trans (by decide), h.2.2 (by decide)⟩

theorem applyStage_eq_filter (f : Filters) (s : Stage) (rs : List Release) :
    applyStage f s rs = rs.filter (fun r => stageKeep f s r) := by
  cases s with
  | adult =>
    by_cases h : f.exclude_adult = true <;>
      simp [applyStage, stageKeep, h, filter_adult]
  | rating =>
    by_cases h : 0 < f.min_tmdb_rating <;>
      simp [applyStage, stageKeep, h, filter_by_tmdb_rating]
  | langs =>
    by_cases h : f.allowed_languages = [] <;>
      simp [applyStage, stageKeep, h, filter_by_allowed_languages]
  | genres =>
    by_cases h : f.excluded_genres = [] <;>
      simp [applyStage, stageKeep, h, filter_by_excluded_genres]
  | certs =>
    by_cases h : f.excluded_certifications = [] <;>
      simp [applyStage, stageKeep, h, filter_by_excluded_certifications]

theorem applyStages_eq_filter (f : Filters) (order : List Stage) (rs : List Release) :
    applyStages f order rs = rs.filter (fun r => order.all (fun s => stageKeep f s r)) := by
  induction order generalizing rs with
  | nil => simp [applyStages]
  | cons s rest ih =>
    show applyStages f rest (applyStage f s rs) = _
    rw [ih, applyStage_eq_filter, List.filter_filter]
    apply List.filter_congr
    intro r _
    simp [List.all_cons, Bool.and_comm]

theorem perm_all_eq {α : Type} {l₁ l₂ : List α} (h : l₁.Perm l₂) (g : α → Bool) :
    l₁.all g = l₂.all g := by
  induction h with
  | nil => rfl
  | cons x _ ih => simp [List.all_cons, ih]
  | swap x y l =>
    simp only [List.all_cons, ← Bool.and_assoc]
    rw [Bool.and_comm (g y) (g x)]
  | trans _ _ ih₁ ih₂ => exact ih₁.trans ih₂

theorem applyStages_perm (f : Filters) (rs : List Release) {o₁ o₂ : List Stage}
    (h : o₁.Perm o₂) : applyStages f o₁ rs = applyStages f o₂ rs := by
  rw [applyStages_eq_filter, applyStages_eq_filter]
  apply List.filter_congr
  intro r _
  exact perm_all_eq h _

theorem apply_filters_eq_stages (f : Filters) (rs : List Release) :
    apply_filters f rs = applyStages f fixedStageOrder rs := rfl

theorem genre_excluded_drops (f : Filters) (rs : List Release) (r : Release)
    (g : String) (hg : g ∈ r.genres)
    (hex : strLower g ∈ f.excluded_genres.map strLower) :
    r ∉ apply_filters f rs := by
  intro hmem
  rw [apply_filters_eq_stages, applyStages_eq_filter] at hmem
  have hkeep := (List.mem_filter.mp hmem).2
  rw [List.all_eq_true] at hkeep
  have hgen := hkeep Stage.genres (by simp [fixedStageOrder])
  have hne : f.excluded_genres ≠ [] := by
    intro h0
    rw [h0] at hex
    simp at hex
  have hany : (r.genres.map strLower).any
      (fun x => (f.excluded_genres.map strLower).contains x) = true := by
    rw [List.any_eq_true]
    refine ⟨strLower g, List.mem_map_of_mem _ hg, ?_⟩
    simpa [List.contains] using hex
  simp only [stageKeep, if_pos hne, hany] at hgen
  simp at hgen

/-- C4 counterexample: the claim's existential part is false — every
stage of the filter engine is an element-wise filter, so every
permutation of the five stages computes the same result as the fixed
order, and no release list, configuration and permutation of stages can
disagree with the fixed order (the claim's universal part about dropped
excluded-genre releases is true, so the conjunction fails at its first
conjunct). -/
theorem filter_stage_order_counterexample :
    ¬ ((∃ (rs : List Release) (f : Filters) (order : List Stage),
          order.Perm fixedStageOrder ∧ applyStages f order rs ≠ apply_filters f rs)
       ∧ (∀ (f : Filters) (rs : List Release) (r : Release) (g : String),
            g ∈ r.genres → strLower g ∈ f.excluded_genres.map strLower →
            f.min_tmdb_rating ≤ r.vote_average → r ∉ apply_filters f rs)) := by
  rintro ⟨⟨rs, f, order, hperm, hne⟩, -⟩
  exact hne ((applyStages_perm f rs hperm).trans (apply_filters_eq_stages f rs).symm)

/-- C4 amended: for every release list, configuration and permutation of
the five filter stages, applying the stages in the permuted order yields
the same result as the fixed order (the stages commute, being
element-wise filters); and a release that passes the rating filter but
has an excluded genre is dropped. -/
theorem filter_stage_order_amended :
    (∀ (f : Filters) (rs : List Release) (order : List Stage),
       order.Perm fixedStageOrder → applyStages f order rs = apply_filters f rs)
    ∧ (∀ (f : Filters) (rs : List Release) (r : Release) (g : String),
         g ∈ r.genres → strLower g ∈ f.excluded_genres.map strLower →
         f.min_tmdb_rating ≤ r.vote_average → r ∉ apply_filters f rs) := by
  constructor
  · intro f rs order hperm
    exact (applyStages_perm f rs hperm).trans (apply_filters_eq_stages f rs).symm
  · intro f rs r g hg hex _
    exact genre_excluded_drops f rs r g hg hex

/-- A baseline release record for concrete instances. -/
def baseRelease : Release :=
  { type := "movie", tmdb_id := some 1, title := none, release_date := none,
    overview := none, imdb_id := none, vote_average := 0, popularity := 0,
    adult := false, poster_path := none, original_language := "en", genres := [],
    certification := none }

/-- A configuration with every filter at its default (disabled) value. -/
def defaultFilters : Filters :=
  { exclude_adult := false, min_tmdb_rating := 0, allowed_languages := [],
    excluded_genres := [], excluded_certifications := [] }

/-- Witness for C4 (amended): the fully reversed stage order agrees with
the fixed order on a concrete list, and a concrete release with the
excluded genre "Horror" is dropped despite passing the rating filter. -/
theorem filter_stage_order_amended_witness :
    applyStages { defaultFilters with excluded_genres := ["Horror"] }
        [Stage.certs, Stage.genres, Stage.langs, Stage.rating, Stage.adult]
        [{ baseRelease with genres := ["Horror"] }]
      = apply_filters { defaultFilters with excluded_genres := ["Horror"] }
          [{ baseRelease with genres := ["Horror"] }]
    ∧ ({ baseRelease with genres := ["Horror"] } : Release)
        ∉ apply_filters { defaultFilters with excluded_genres := ["Horror"] }
            [{ baseRelease with genres := ["Horror"] }] := by
  constructor
  · exact filter_stage_order_amended.1 _ _ _ (by decide)
  · exact filter_stage_order_amended.2 _ _ _ "Horror" (by decide) (by decide) (by decide)

/-- C5: with an empty allow-list the language stage is skipped entirely;
with a non-empty one exactly the releases whose `original_language` is
in the list are kept — in particular, with allow-list ["en"] a release
with empty `original_language` is dropped. -/
theorem allowed_languages_semantics (f : Filters) (allowed : List String)
    (rs : List Release) (r : Release) :
    (f.allowed_languages = [] → applyStage f .langs rs = rs)
    ∧ (r ∈ filter_by_allowed_languages allowed rs ↔
        r ∈ rs ∧ r.original_language ∈ allowed)
    ∧ (f.allowed_languages ≠ [] →
        applyStage f .langs rs = filter_by_allowed_languages f.allowed_languages rs)
    ∧ (r.original_language = "" → r ∉ filter_by_allowed_languages ["en"] rs) := by
  have hmem : ∀ (al : List String),
      r ∈ filter_by_allowed_languages al rs ↔ r ∈ rs ∧ r.original_language ∈ al := by
    intro al
    simp [filter_by_allowed_languages, List.mem_filter, List.contains]
  refine ⟨?_, hmem allowed, ?_, ?_⟩
  · intro h
    simp [applyStage, h]
  · intro h
    simp [applyStage, h]
  · intro h hm
    have h2 := ((hmem ["en"]).mp hm).2
    rw [h] at h2
    simp at h2

/-- Witness for C5: with the allow-list empty the stage is skipped, and
with allow-list ["en"] a release with empty language is dropped. -/
theorem allowed_languages_semantics_witness :
    applyStage defaultFilters .langs [baseRelease] = [baseRelease]
    ∧ ({ baseRelease with original_language := "" } : Release)
        ∉ filter_by_allowed_languages ["en"]
          [{ baseRelease with original_language := "" }] := by
  constructor
  · exact (allowed_languages_semantics defaultFilters [] [baseRelease] baseRelease).1 rfl
  · exact (allowed_languages_semantics defaultFilters ["en"]
      [{ baseRelease with original_language := "" }]
      { baseRelease with original_language := "" }).2.2.2 rfl

/-- C7: the certification deny-list matches case-insensitively (both
sides upper-cased before comparison), a release whose certification is
empty or absent is always kept, and the filter is a total function
(never raises). -/
theorem excluded_certifications_semantics (excluded : List String)
    (rs : List Release) (r : Release) (hne : excluded ≠ []) :
    (r ∈ filter_by_excluded_certifications excluded rs ↔
       r ∈ rs ∧ ¬(∃ c, r.certification = some c ∧ c ≠ "" ∧
         strUpper c ∈ excluded.map strUpper))
    ∧ ((r.certification = none ∨ r.certification = some "") →
        r ∈ rs → r ∈ filter_by_excluded_certifications excluded rs)
    ∧ (∀ c, r.certification = some c → c ≠ "" →
        strUpper c ∈ excluded.map strUpper →
        r ∉ filter_by_excluded_certifications excluded rs) := by
  have hchar : r ∈ filter_by_excluded_certifications excluded rs ↔
      r ∈ rs ∧ ¬(∃ c, r.certification = some c ∧ c ≠ "" ∧
        strUpper c ∈ excluded.map strUpper) := by
    simp only [filter_by_excluded_certifications, List.mem_filter]
    cases hc : r.certification with
    | none => simp [hc]
    | some c =>
      by_cases hce : c = ""
      · simp [hc, hce]
      · simp [hc, hce, List.contains]
  refine ⟨hchar, ?_, ?_⟩
  · intro hcert hin
    rcases hcert with h | h <;> exact hchar.mpr ⟨hin, by simp [h]⟩
  · intro c hcert hcne hup hm
    exact ((hchar.mp hm).2) ⟨c, hcert, hcne, hup⟩

/-- Witness for C7: with deny-list ["r"], a release with an absent
certification is kept, and one certified "R" is dropped (matched
case-insensitively). -/
theorem excluded_certifications_semantics_witness :
    baseRelease ∈ filter_by_excluded_certifications ["r"] [baseRelease]
    ∧ ({ baseRelease with certification := some "R" } : Release)
        ∉ filter_by_excluded_certifications ["r"]
          [{ baseRelease with certification := some "R" }] := by
  constructor
  · exact (excluded_certifications_semantics ["r"] [baseRelease] baseRelease
      (by decide)).2.1 (Or.inl rfl) (by simp)
  · exact (excluded_certifications_semantics ["r"] _ _ (by decide)).2.2 "R" rfl
      (by decide) (by decide)

/-- C2: for a release with a truthy TMDB id whose status check does not
report it as already requested, the minimal-request sink succeeds
exactly on submit status 200, 201 or 409; any other status and any
network-level failure yield false (the embedding is total, so nothing
propagates past the sink boundary); and a status check reporting ordinal
at least 2 yields false for every submit response, i.e. without
consulting the submit call. -/
theorem request_media_semantics (tmdb_id : Option Nat) (check : CheckResponse)
    (submit : NetResult Nat) (htid : tmdbTruthy tmdb_id = true) :
    (is_already_requested check = false →
      (request_media tmdb_id check submit = true ↔
        submit = .ok 200 ∨ submit = .ok 201 ∨ submit = .ok 409))
    ∧ (is_already_requested check = true →
        request_media tmdb_id check submit = false)
    ∧ (∀ s : Nat, check = .ok (200, some s) → 2 ≤ s →
        request_media tmdb_id check submit = false) := by
  refine ⟨?_, ?_, ?_⟩
  · intro hc
    cases submit with
    | err => simp [request_media, htid, hc]
    | ok code =>
      by_cases h1 : code = 200
      · simp [request_media, htid, hc, h1]
      · by_cases h2 : code = 201
        · simp [request_media, htid, hc, h1, h2]
        · by_cases h3 : code = 409
          · simp [request_media, htid, hc, h1, h2, h3]
          · simp [request_media, htid, hc, h1, h2, h3]
  · intro hc
    simp [request_media, htid, hc]
  · intro s hcheck hs
    have hreq : is_already_requested check = true := by
      subst hcheck
      simp [is_already_requested]
      omega
    simp [request_media, htid, hreq]

/-- Witness for C2: TMDB id 7, a status check finding ordinal 1 (below
the already-requested threshold), and a 409 submit response succeed. -/
theorem request_media_semantics_witness :
    request_media (some 7) (.ok (200, some 1)) (.ok 409) = true := by
  exact (request_media_semantics (some 7) (.ok (200, some 1)) (.ok 409)
    (by decide)).1 (by decide) |>.mpr (Or.inr (Or.inr rfl))

/-- C3: for a non-empty batch in which every release has a truthy TMDB
id, the bulk-ingest result is all-or-nothing — 200 counts every
submitted identifier as success, any other status and any network
failure count every one as failed; the embedding is total, so the call
never raises. -/
theorem add_items_all_or_nothing (releases : List Release)
    (hne : releases ≠ [])
    (hids : ∀ r ∈ releases, tmdbTruthy r.tmdb_id = true) :
    add_items releases (.ok 200) = ⟨releases.length, 0⟩
    ∧ (∀ code : Nat, code ≠ 200 →
        add_items releases (.ok code) = ⟨0, releases.length⟩)
    ∧ add_items releases .err = ⟨0, releases.length⟩ := by
  have hfilter : releases.filter (fun r => tmdbTruthy r.tmdb_id) = releases :=
    List.filter_eq_self.mpr hids
  have hlen : (rivenTmdbIds releases).length = releases.length := by
    rw [rivenTmdbIds, hfilter, List.length_map]
  have hnz : ¬(rivenTmdbIds releases).length = 0 := by
    rw [hlen]
    simpa [List.length_eq_zero] using hne
  refine ⟨?_, ?_, ?_⟩
  · simp [add_items, hnz, hlen, hne]
  · intro code hcode
    by_cases h4 : code = 404
    · simp [add_items, hnz, hlen, hne, hcode, h4]
    · by_cases h5 : code = 422
      · simp [add_items, hnz, hlen, hne, hcode, h4, h5]
      · simp [add_items, hnz, hlen, hne, hcode, h4, h5]
  · simp [add_items, hnz, hne]

/-- Witness for C3: a singleton batch with TMDB id 1 — a 404 response
fails the whole batch. -/
theorem add_items_all_or_nothing_witness :
    add_items [baseRelease] (.ok 404) = ⟨0, 1⟩ := by
  exact ((add_items_all_or_nothing [baseRelease] (by decide)
    (by decide)).2.1 404 (by decide)).trans (by decide)

/-- C8: a missing or empty Overseerr API key raises at construction,
while the Riven and Discord constructors never raise — Riven is enabled
exactly when both its (defaulted) endpoint and credential are non-empty,
and each reports `is_enabled` false under missing credentials. -/
theorem sink_construction_asymmetry (config : Config) :
    ((config.overseerr_api_key = none ∨ config.overseerr_api_key = some "") →
      overseerrInit config = .error "Overseerr API key is required")
    ∧ ((rivenInit config).is_enabled = true ↔
        (config.riven_api_key.getD "" ≠ "" ∧
         config.riven_api_url.getD "http://localhost:8083" ≠ ""))
    ∧ ((config.riven_api_key = none ∨ config.riven_api_key = some "") →
        (rivenInit config).is_enabled = false)
    ∧ ((config.discord_webhook_url = none ∨ config.discord_webhook_url = some "") →
        (discordInit config).is_enabled = false) := by
  refine ⟨?_, ?_, ?_, ?_⟩
  · rintro (h | h) <;> simp [overseerrInit, h]
  · simp [rivenInit, RivenRequester.is_enabled]
  · rintro (h | h) <;> simp [rivenInit, RivenRequester.is_enabled, h]
  · rintro (h | h) <;> simp [discordInit, DiscordNotifier.is_enabled, h]

/-- Witness for C8: the empty configuration — Overseerr construction
errors, Riven and Discord construct but report disabled. -/
theorem sink_construction_asymmetry_witness :
    overseerrInit ⟨none, none, none, none, none⟩ =
      .error "Overseerr API key is required"
    ∧ (rivenInit ⟨none, none, none, none, none⟩).is_enabled = false
    ∧ (discordInit ⟨none, none, none, none, none⟩).is_enabled = false := by
  refine ⟨?_, ?_, ?_⟩
  · exact (sink_construction_asymmetry ⟨none, none, none, none, none⟩).1 (Or.inl rfl)
  · exact (sink_construction_asymmetry ⟨none, none, none, none, none⟩).2.2.1 (Or.inl rfl)
  · exact (sink_construction_asymmetry ⟨none, none, none, none, none⟩).2.2.2 (Or.inl rfl)

/-- C9: with the notifier enabled, a delivery is attempted for a release
exactly when the result-map entry under its stringified TMDB id marks at
least one of the two sinks successful; a release with no entry, or with
both flags false or absent, is never notified. -/
theorem notification_gating (d : DiscordNotifier) (releases : List Release)
    (results : List (String × SinkFlags)) (r : Release)
    (hen : d.is_enabled = true) :
    (r ∈ notification_attempts d releases results ↔
       r ∈ releases ∧
         ((lookupFlags results (strTmdbId r)).overseerr.getD false = true ∨
          (lookupFlags results (strTmdbId r)).riven.getD false = true))
    ∧ (results.find? (fun p => p.1 = strTmdbId r) = none →
        r ∉ notification_attempts d releases results) := by
  have hmem : r ∈ notification_attempts d releases results ↔
      r ∈ releases ∧
        ((lookupFlags results (strTmdbId r)).overseerr.getD false = true ∨
         (lookupFlags results (strTmdbId r)).riven.getD false = true) := by
    rw [notification_attempts, hen]
    simp only [Bool.not_true, Bool.false_eq_true, if_false, List.mem_filter]
    rw [notifyGate]
    cases (lookupFlags results (strTmdbId r)).overseerr.getD false <;>
      cases (lookupFlags results (strTmdbId r)).riven.getD false <;> simp
  refine ⟨hmem, ?_⟩
  intro hfind hm
  have h2 := (hmem.mp hm).2
  rw [lookupFlags, hfind] at h2
  simp at h2

/-- Witness for C9: a release with TMDB id 1 whose result entry marks
the Overseerr sink successful is among the attempted notifications. -/
theorem notification_gating_witness :
    baseRelease ∈ notification_attempts ⟨"https://discord.example/hook"⟩
      [baseRelease] [("1", ⟨some true, none⟩)] := by
  exact (notification_gating ⟨"https://discord.example/hook"⟩ [baseRelease]
    [("1", ⟨some true, none⟩)] baseRelease (by decide)).1.mpr
    ⟨by simp, Or.inl (by decide)⟩

/-- C10 counterexample: a single movie release carrying TMDB id 1,
submitted to an enabled bulk-ingest sink that answers 404, yields a
failed count equal to the full input length even though the release
does carry a TMDB id — refuting the claim's closing assertion that the
failed count equals the full input length only when no release carries
a TMDB id. -/
theorem bulk_failed_count_counterexample :
    (add_media ⟨"http://localhost:8083", "k"⟩ [baseRelease] (.ok 404)).failed
      = ([baseRelease] : List Release).length
    ∧ tmdbTruthy baseRelease.tmdb_id = true := by
  constructor
  · decide
  · decide

/-- C10 amended: releases whose type tag is not "movie" or whose TMDB id
is missing are silently excluded from the submitted batch — on a 200
response the success count equals the number of movie releases carrying
a TMDB id, the success and failed counts can sum to strictly less than
the input length, and when the movie sublist is non-empty but none of
its members carries a TMDB id the failed count equals the number of
movie releases (the full input length only when every release is a
movie). -/
theorem bulk_batch_counts (rq : RivenRequester) (releases : List Release)
    (hen : rq.is_enabled = true) :
    ((add_media rq releases (.ok 200)).success =
       ((releases.filter (fun r => r.type = "movie")).filter
         (fun r => tmdbTruthy r.tmdb_id)).length)
    ∧ (∃ (rs : List Release) (resp : NetResult Nat),
         (add_media rq rs resp).success + (add_media rq rs resp).failed < rs.length)
    ∧ (∀ resp : NetResult Nat,
         releases.filter (fun r => r.type = "movie") ≠ [] →
         (∀ r ∈ releases.filter (fun r => r.type = "movie"),
            tmdbTruthy r.tmdb_id = false) →
         (add_media rq releases resp).failed =
           (releases.filter (fun r => r.type = "movie")).length) := by
  refine ⟨?_, ?_, ?_⟩
  · have hids : (rivenTmdbIds (releases.filter (fun r => r.type = "movie"))).length =
        ((releases.filter (fun r => r.type = "movie")).filter
          (fun r => tmdbTruthy r.tmdb_id)).length := by
      rw [rivenTmdbIds, List.length_map]
    rw [← hids]
    by_cases h0 : (releases.filter (fun r => r.type = "movie")).length = 0
    · have hmov : releases.filter (fun r => r.type = "movie") = [] :=
        List.length_eq_zero.mp h0
      simp [add_media, hen, hmov, rivenTmdbIds]
    · by_cases h1 : (rivenTmdbIds (releases.filter (fun r => r.type = "movie"))).length = 0
      · simp [add_media, hen, h0, add_items, h1]
      · simp [add_media, hen, h0, add_items, h1]
  · refine ⟨[baseRelease, { baseRelease with type := "tv" }], .ok 200, ?_⟩
    simp only [add_media, hen, Bool.not_true, Bool.false_eq_true, if_false]
    decide
  · intro resp hne hfalsy
    have h1 : (rivenTmdbIds (releases.filter (fun r => r.type = "movie"))).length = 0 := by
      rw [rivenTmdbIds, List.length_map, List.length_eq_zero, List.filter_eq_nil_iff]
      intro a ha
      simp [hfalsy a ha]
    have h0 : (releases.filter (fun r => r.type = "movie")).length ≠ 0 := by
      simpa [List.length_eq_zero] using hne
    simp [add_media, hen, h0, add_items, h1]

/-- Witness for C10 (amended): an enabled sink, one movie release with
TMDB id 1, a 200 response — success count 1. -/
theorem bulk_batch_counts_witness :
    (add_media ⟨"http://localhost:8083", "k"⟩ [baseRelease] (.ok 200)).success = 1 := by
  exact ((bulk_batch_counts ⟨"http://localhost:8083", "k"⟩ [baseRelease]
    (by decide)).1).trans (by decide)
